import Mathlib

/-!
Shallow embedding of the Watchly configuration-wizard client
(`src/app/static/js/` modules plus the legacy `src/static/script.js`).

State that in the JavaScript lives in DOM elements or module-level
variables is made explicit: every handler becomes a pure function from
its inputs (field values, the catalog array, server responses) to a
record of its observable effects (new state, whether a network call was
issued, which messages were shown).  JavaScript truthiness on strings is
embedded as comparison with `""`, on `undefined`-able booleans as
`Option Bool`, and `Number` timestamps as `Int`.
-/

namespace Watchly

/-- Embedding of JavaScript `String.prototype.trim()`: drop leading and
trailing whitespace characters.  (Defined by structural recursion on the
character list so that concrete instances evaluate.) -/
def jsTrim (s : String) : String :=
  ⟨((s.data.dropWhile Char.isWhitespace).reverse.dropWhile Char.isWhitespace).reverse⟩

/-! Section: Catalog data model (constants.js, catalog.js)

A catalog descriptor.  In JavaScript the `enabledMovie`, `enabledSeries`,
`display_at_home` and `shuffle` properties may be absent (`undefined`),
and every read site tests them with `!== false` / `=== true`, so they are
embedded as `Option Bool`. -/
structure Catalog where
  id : String
  name : String
  enabled : Bool
  enabledMovie : Option Bool
  enabledSeries : Option Bool
  display_at_home : Option Bool
  shuffle : Option Bool
  description : String
deriving Repr, DecidableEq

/-- The `defaultCatalogs` list from `src/app/static/js/constants.js` (descriptions
elided to short markers; they are display-only and never branched on). -/
def defaultCatalogs : List Catalog :=
  [ { id := "watchly.rec", name := "Top Picks for You", enabled := true,
      enabledMovie := some true, enabledSeries := some true,
      display_at_home := some true, shuffle := some false, description := "rec" }
  , { id := "watchly.loved", name := "More Like", enabled := true,
      enabledMovie := some true, enabledSeries := some true,
      display_at_home := some true, shuffle := some false, description := "loved" }
  , { id := "watchly.watched", name := "Because You Watched", enabled := true,
      enabledMovie := some true, enabledSeries := some true,
      display_at_home := some true, shuffle := some false, description := "watched" }
  , { id := "watchly.creators", name := "From your favourite Creators", enabled := false,
      enabledMovie := some true, enabledSeries := some true,
      display_at_home := some true, shuffle := some false, description := "creators" }
  , { id := "watchly.all.loved", name := "Based on what you loved", enabled := false,
      enabledMovie := some true, enabledSeries := some true,
      display_at_home := some true, shuffle := some false, description := "all loved" }
  , { id := "watchly.liked.all", name := "Based on what you liked", enabled := false,
      enabledMovie := some true, enabledSeries := some true,
      display_at_home := some true, shuffle := some false, description := "liked all" }
  , { id := "watchly.theme", name := "Genre & Keyword Catalogs", enabled := true,
      enabledMovie := some true, enabledSeries := some true,
      display_at_home := some true, shuffle := some false, description := "theme" }
  ]

/-- Read of `cat.enabledMovie !== false` (an absent property counts as enabled). -/
def enabledMovieEff (c : Catalog) : Bool := c.enabledMovie ≠ some false

/-- Read of `cat.enabledSeries !== false`. -/
def enabledSeriesEff (c : Catalog) : Bool := c.enabledSeries ≠ some false

/-! Section: Reordering (catalog.js `moveCatalogUp` / `moveCatalogDown`)

The JavaScript swaps `catalogs[index]` with its neighbour via a
destructuring assignment and then calls `renderCatalogList()`; at the
boundary it `return`s before either.  The second component of the result
records whether `renderCatalogList()` was invoked.  `swapAdj l i`
exchanges positions `i` and `i+1`; the UI only ever passes the index of
a rendered item, so both positions exist at every reachable call. -/
def swapAdj (l : List Catalog) (i : Nat) : List Catalog :=
  match l[i]?, l[i+1]? with
  | some a, some b => (l.set i b).set (i+1) a
  | _, _ => l

/-- Handler `moveCatalogUp(index)`: no-op (and no re-render) when `index === 0`,
otherwise swap entries `index-1` and `index` and re-render. -/
def moveCatalogUp (l : List Catalog) (index : Nat) : List Catalog × Bool :=
  if index = 0 then (l, false)
  else (swapAdj l (index - 1), true)

/-- Handler `moveCatalogDown(index)`: no-op (and no re-render) when
`index === catalogs.length - 1` (JavaScript number arithmetic, hence the
`Int` cast), otherwise swap entries `index` and `index+1` and re-render. -/
def moveCatalogDown (l : List Catalog) (index : Nat) : List Catalog × Bool :=
  if (index : Int) = (l.length : Int) - 1 then (l, false)
  else (swapAdj l index, true)

/-! Section: Rename editing (catalog.js `setupRenameLogic`)

The closure state visible to `saveEdit` / `cancelEdit`: the model name
field `cat.name`, the displayed label (`nameText.textContent`) and the text
current value of the input. -/
structure RenameState where
  catName : String
  displayedLabel : String
  inputValue : String
deriving Repr, DecidableEq

/-- Function `saveEdit()`: trim the input; a truthy (non-empty) result is committed
to the model name, the label and the input; an empty result only resets
the input back to the current name. -/
def saveEdit (s : RenameState) : RenameState :=
  let newName := jsTrim s.inputValue
  if newName ≠ "" then
    { catName := newName, displayedLabel := newName, inputValue := newName }
  else
    { s with inputValue := s.catName }

/-- Function `cancelEdit()` (Escape key or cancel button): reset the input to the
current name, committing nothing. -/
def cancelEdit (s : RenameState) : RenameState :=
  { s with inputValue := s.catName }

/-! Section: Content-type mode selection (catalog.js type-button click handler) -/

/-- The three `data-mode` values carried by the rendered toggle buttons. -/
inductive Mode
  | both
  | movie
  | series
deriving Repr, DecidableEq

/-- State update performed by the type-button click handler on the catalog object. -/
def applyMode (c : Catalog) (m : Mode) : Catalog :=
  match m with
  | .both => { c with enabledMovie := some true, enabledSeries := some true }
  | .movie => { c with enabledMovie := some true, enabledSeries := some false }
  | .series => { c with enabledMovie := some false, enabledSeries := some true }

/-- The state the claim forbids: both content types effectively disabled. -/
def notBothDisabled (c : Catalog) : Bool := enabledMovieEff c || enabledSeriesEff c

/-! Section: Item rendering (catalog.js / script.js `createCatalogItem`)

Only the data-dependent parts of the generated markup are modelled. -/

/-- The `activeMode` value as computed at the top of `createCatalogItem`. -/
def activeModeOf (c : Catalog) : Mode :=
  if enabledMovieEff c ∧ ¬ enabledSeriesEff c then .movie
  else if ¬ enabledMovieEff c ∧ enabledSeriesEff c then .series
  else .both

structure CatalogItemView where
  renameControl : Bool
  moveUpDisabled : Bool
  moveDownDisabled : Bool
  activeMode : Mode
  dimmed : Bool
deriving Repr, DecidableEq

/-- Renderer `createCatalogItem(cat, index)` from
`src/app/static/js/modules/catalog.js`: the rename control is emitted iff
`cat.id !== "watchly.theme"`. -/
def createCatalogItem (listLength : Nat) (c : Catalog) (index : Nat) : CatalogItemView :=
  { renameControl := c.id ≠ "watchly.theme"
  , moveUpDisabled := index = 0
  , moveDownDisabled := (index : Int) = (listLength : Int) - 1
  , activeMode := activeModeOf c
  , dimmed := !c.enabled }

/-- Renderer `createCatalogItem(cat, index)` from the legacy `src/static/script.js`
(lines 705 onward): there the guard is `cat.id === "watchly.rec"`, so only
that one catalog receives a rename control. -/
def createCatalogItemLegacy (listLength : Nat) (c : Catalog) (index : Nat) : CatalogItemView :=
  { renameControl := c.id = "watchly.rec"
  , moveUpDisabled := index = 0
  , moveDownDisabled := (index : Int) = (listLength : Int) - 1
  , activeMode := activeModeOf c
  , dimmed := !c.enabled }

/-! Section: Navigation (navigation.js `switchSection`, main.js wiring)

`main.js` registers six section elements (`sect-welcome` … `sect-success`)
and five nav items (there is no `nav-success`).  `switchSection` walks
`Object.values(sections)` hiding every element that exists, shows the
target if it exists, strips the `active` class from every existing nav
item and adds it to the nav item of the target if that exists. -/

inductive SectionKey
  | welcome
  | login
  | config
  | catalogs
  | install
  | success
deriving Repr, DecidableEq

/-- Which of the ids looked up by `main.js` resolve to DOM elements
(a `null` entry is skipped by every `if (el)` guard). -/
structure NavDom where
  secPresent : SectionKey → Bool
  navPresent : SectionKey → Bool

/-- Visibility (`hidden` class absent) of each section element and the
`active` class on each nav item; only meaningful where the element exists. -/
structure NavState where
  visible : SectionKey → Bool
  active : SectionKey → Bool

/-- Handler `switchSection(sectionKey)`. -/
def switchSection (dom : NavDom) (st : NavState) (key : SectionKey) : NavState :=
  let hidden := fun k => if dom.secPresent k then false else st.visible k
  let shown := fun k => if k = key ∧ dom.secPresent key then true else hidden k
  let cleared := fun k => if dom.navPresent k then false else st.active k
  let activated := fun k => if k = key ∧ dom.navPresent key then true else cleared k
  { visible := shown, active := activated }

/-- The `navItems` map built in `main.js`: every key except `success` has a
nav item. -/
def mainNavPresent : SectionKey → Bool := fun k => k ≠ SectionKey.success

/-! Section: Credential persistence (auth.js `saveAuthToStorage`,
`getAuthFromStorage`, `clearAuthFromStorage`)

The stored JSON blob.  Every field of the saved object may be absent;
`expiresAt` is a JavaScript number (epoch milliseconds), embedded as
`Option Int` (`none` = property absent).  The JavaScript guard
`data.expiresAt && data.expiresAt < now` treats both an absent and a zero
`expiresAt` as falsy, which the embedding reproduces. -/
structure AuthData where
  authKey : Option String
  email : Option String
  password : Option String
  expiresAt : Option Int
deriving Repr, DecidableEq

/-- Constant `EXPIRY_DAYS = 30`, in epoch milliseconds. -/
def expiryMs : Int := 30 * 86400000

/-- Function `saveAuthToStorage(authData)` executed at epoch-ms `now`: spread the
data and set `expiresAt` to now plus 30 days.  (`expiryDate.setDate(
expiryDate.getDate() + EXPIRY_DAYS)` adds 30 calendar days; in epoch
milliseconds that is `now + 30 * 86400000`.) -/
def saveAuthToStorage (d : AuthData) (now : Int) : AuthData :=
  { d with expiresAt := some (now + expiryMs) }

/-- Function `getAuthFromStorage()` at epoch-ms `now`.  `storage` is the content of
`localStorage` under `watchly_auth`; `parse` embeds `JSON.parse`, with
`none` for a thrown parse error (the `catch` branch).  The result pairs
the returned value with the storage content afterwards (`none` after
`clearAuthFromStorage()`). -/
def getAuthFromStorage (parse : String → Option AuthData)
    (storage : Option String) (now : Int) : Option AuthData × Option String :=
  match storage with
  | none => (none, none)
  | some s =>
    match parse s with
    | none => (none, none)
    | some data =>
      match data.expiresAt with
      | some e => if e ≠ 0 ∧ e < now then (none, none) else (some data, some s)
      | none => (some data, some s)

/-! Section: Returning-user settings load (auth.js `fetchStremioIdentity`,
catalogs branch)

A remote catalog entry from the identity response.  `name` may be absent
or any string (the code guards with truthiness `if (remote.name)`);
the four boolean fields are applied only when
`typeof remote.x === "boolean"`, embedded as `Option Bool`. -/
structure RemoteCatalog where
  id : String
  enabled : Bool
  name : Option String
  enabled_movie : Option Bool
  enabled_series : Option Bool
  display_at_home : Option Bool
  shuffle : Option Bool
deriving Repr, DecidableEq

/-- The field updates performed on a matched local catalog object (the
`local` variable of the JavaScript; renamed `lc` as `local` is reserved). -/
def applyRemote (lc : Catalog) (remote : RemoteCatalog) : Catalog :=
  { lc with
    enabled := remote.enabled
    name := match remote.name with
      | some n => if n ≠ "" then n else lc.name
      | none => lc.name
    enabledMovie := match remote.enabled_movie with
      | some b => some b
      | none => lc.enabledMovie
    enabledSeries := match remote.enabled_series with
      | some b => some b
      | none => lc.enabledSeries
    display_at_home := match remote.display_at_home with
      | some b => some b
      | none => lc.display_at_home
    shuffle := match remote.shuffle with
      | some b => some b
      | none => lc.shuffle }

/-- Step `catalogs.find(c => c.id === remote.id)` followed by in-place mutation:
apply `f` to the first entry with the given id, if any. -/
def updateFirst (l : List Catalog) (rid : String) (f : Catalog → Catalog) : List Catalog :=
  match l with
  | [] => []
  | c :: rest => if c.id = rid then f c :: rest else c :: updateFirst rest rid f

/-- Step `s.catalogs.forEach(remote => ...)`: fold every remote entry into the
local list. -/
def loadRemoteCatalogs (locals : List Catalog) (remotes : List RemoteCatalog) :
    List Catalog :=
  remotes.foldl (fun acc r => updateFirst acc r.id (fun c => applyRemote c r)) locals

/-! Section: Form submission (form.js `initializeFormSubmission`,
`initializePosterRatingProvider`)

The JSON body of `POST /tokens/` (`undefined` fields embedded as `none`,
matching `sAuthKey || undefined` etc.). -/

structure CatalogSend where
  id : String
  name : String
  enabled : Bool
  enabled_movie : Bool
  enabled_series : Bool
  display_at_home : Bool
  shuffle : Bool
deriving Repr, DecidableEq

structure PosterRating where
  provider : String
  api_key : String
deriving Repr, DecidableEq

structure TokensPayload where
  authKey : Option String
  email : Option String
  password : Option String
  catalogs : List CatalogSend
  language : String
  poster_rating : Option PosterRating
  excluded_movie_genres : List String
  excluded_series_genres : List String
deriving Repr, DecidableEq

/-- One entry of `catalogsToSend`.  `domMode` is the result of the
`querySelector` for the highlighted mode button of this catalog id
(`none` when no such button is found, in which case the code falls back
to the model fields read with `!== false`). -/
def catalogEntryToSend (domMode : Option Mode) (c : Catalog) : CatalogSend :=
  let ems : Bool × Bool :=
    match domMode with
    | some .movie => (true, false)
    | some .series => (false, true)
    | some .both => (true, true)
    | none => (enabledMovieEff c, enabledSeriesEff c)
  { id := c.id
  , name := c.name
  , enabled := c.enabled
  , enabled_movie := ems.1
  , enabled_series := ems.2
  , display_at_home := c.display_at_home ≠ some false
  , shuffle := c.shuffle = some true }

/-- The parsed JSON of the `POST /poster-rating/validate` response. -/
structure ValidateResp where
  valid : Bool
  message : Option String
deriving Repr, DecidableEq

/-- JavaScript `m || d` for an optional string. -/
def jsOrDefault (m : Option String) (d : String) : String :=
  match m with
  | some s => if s = "" then d else s
  | none => d

/-- Observable outcome of `validateApiKey()`: its boolean result, the API
key field afterwards (cleared on a server-side rejection) and the
validation message shown. -/
structure ValidateOutcome where
  ok : Bool
  apiKeyFieldAfter : String
  message : Option String
deriving Repr, DecidableEq

/-- Function `validateApiKey()` from `initializePosterRatingProvider`.  `resp` is
the parsed response of the validation round-trip, `none` when the fetch
or JSON parse throws (the `catch` branch). -/
def validateApiKey (provider apiKeyField : String) (resp : Option ValidateResp) :
    ValidateOutcome :=
  let apiKey := jsTrim apiKeyField
  if provider = "" ∨ apiKey = "" then
    { ok := false, apiKeyFieldAfter := apiKeyField
    , message := some "Please select a provider and enter an API key" }
  else
    match resp with
    | some d =>
      if d.valid then
        { ok := true, apiKeyFieldAfter := apiKeyField
        , message := some "API key is valid ✓" }
      else
        { ok := false, apiKeyFieldAfter := ""
        , message := some (jsOrDefault d.message "Invalid API key") }
    | none =>
      { ok := false, apiKeyFieldAfter := apiKeyField
      , message := some "Validation failed. Please try again." }

/-- All inputs read by the submit-button click handler: form field values,
the catalog list, the per-id highlighted mode button (`domModes`), whether
`window.validatePosterRatingApiKey` has been installed by
`initializePosterRatingProvider`, and the response of the validation server
when called. -/
structure SubmitEnv where
  authKeyField : String
  emailField : String
  passwordField : String
  languageField : String
  providerField : String
  apiKeyField : String
  excludedMovieGenres : List String
  excludedSeriesGenres : List String
  catalogs : List Catalog
  domModes : String → Option Mode
  validatorInstalled : Bool
  validateResp : Option ValidateResp

/-- Observable outcome of one submit-button click, up to the point where
the `POST /tokens/` request is issued: `posted = some p` iff the fetch was
issued with body `p`. -/
structure SubmitResult where
  posted : Option TokensPayload
  loginErrorShown : Bool
  switchedToLogin : Bool
  validateCalled : Bool
  apiKeyFieldAfter : String
  validationMessage : Option String
deriving Repr, DecidableEq

/-- The `payload` object built inside the `try` block (lines 116–134 of
form.js), from the values captured at the top of the handler. -/
def mkTokensPayload (env : SubmitEnv) : TokensPayload :=
  let sAuthKey := jsTrim env.authKeyField
  let email := jsTrim env.emailField
  let password := env.passwordField
  let posterProvider := env.providerField
  let posterKey := jsTrim env.apiKeyField
  { authKey := if sAuthKey = "" then none else some sAuthKey
  , email := if email = "" then none else some email
  , password := if password = "" then none else some password
  , catalogs := env.catalogs.map (fun c => catalogEntryToSend (env.domModes c.id) c)
  , language := env.languageField
  , poster_rating :=
      if posterProvider ≠ "" ∧ posterKey ≠ "" then
        some { provider := posterProvider, api_key := posterKey }
      else none
  , excluded_movie_genres := env.excludedMovieGenres
  , excluded_series_genres := env.excludedSeriesGenres }

/-- The submit-button click handler of `initializeFormSubmission`:
credential precondition, optional poster-rating validation round-trip,
then the `POST /tokens/`. -/
def submitHandler (env : SubmitEnv) : SubmitResult :=
  let sAuthKey := jsTrim env.authKeyField
  let email := jsTrim env.emailField
  let password := env.passwordField
  let posterProvider := env.providerField
  let posterKey := jsTrim env.apiKeyField
  if sAuthKey = "" ∧ (email = "" ∨ password = "") then
    { posted := none, loginErrorShown := true, switchedToLogin := true
    , validateCalled := false, apiKeyFieldAfter := env.apiKeyField
    , validationMessage := none }
  else if posterProvider ≠ "" ∧ posterKey ≠ "" ∧ env.validatorInstalled then
    let v := validateApiKey posterProvider env.apiKeyField env.validateResp
    if v.ok then
      { posted := some (mkTokensPayload env), loginErrorShown := false
      , switchedToLogin := false, validateCalled := true
      , apiKeyFieldAfter := v.apiKeyFieldAfter, validationMessage := v.message }
    else
      { posted := none, loginErrorShown := false, switchedToLogin := false
      , validateCalled := true, apiKeyFieldAfter := v.apiKeyFieldAfter
      , validationMessage := v.message }
  else
    { posted := some (mkTokensPayload env), loginErrorShown := false
    , switchedToLogin := false, validateCalled := false
    , apiKeyFieldAfter := env.apiKeyField, validationMessage := none }

/-! Section: Sample values (entries of `defaultCatalogs`, used to instantiate
theorems on concrete inputs) -/

def recCatalog : Catalog :=
  { id := "watchly.rec", name := "Top Picks for You", enabled := true,
    enabledMovie := some true, enabledSeries := some true,
    display_at_home := some true, shuffle := some false, description := "rec" }

def lovedCatalog : Catalog :=
  { id := "watchly.loved", name := "More Like", enabled := true,
    enabledMovie := some true, enabledSeries := some true,
    display_at_home := some true, shuffle := some false, description := "loved" }

def themeCatalog : Catalog :=
  { id := "watchly.theme", name := "Genre & Keyword Catalogs", enabled := true,
    enabledMovie := some true, enabledSeries := some true,
    display_at_home := some true, shuffle := some false, description := "theme" }

/-! Section: Helper lemmas -/

theorem swapAdj_spec (l : List Catalog) (i : Nat) (h : i + 1 < l.length) :
    (swapAdj l i).length = l.length ∧
    (swapAdj l i)[i]? = l[i+1]? ∧
    (swapAdj l i)[i+1]? = l[i]? ∧
    ∀ j, j ≠ i → j ≠ i + 1 → (swapAdj l i)[j]? = l[j]? := by
  have hi : i < l.length := Nat.lt_of_succ_lt h
  have h1 : l[i]? = some (l.get ⟨i, hi⟩) := List.getElem?_eq_getElem hi
  have h2 : l[i+1]? = some (l.get ⟨i+1, h⟩) := List.getElem?_eq_getElem h
  unfold swapAdj
  rw [h1, h2]
  refine ⟨by simp [List.length_set], ?_, ?_, ?_⟩
  · rw [List.getElem?_set_ne (by omega),
      List.getElem?_set_eq_of_lt _ hi]
  · rw [List.getElem?_set_eq_of_lt _ (by simpa using h)]
  · intro j hj1 hj2
    rw [List.getElem?_set_ne (by omega), List.getElem?_set_ne (by omega)]

theorem applyMode_notBothDisabled (c : Catalog) (m : Mode) :
    notBothDisabled (applyMode c m) = true := by
  cases m <;> simp [applyMode, notBothDisabled, enabledMovieEff, enabledSeriesEff]

/-! Section: Claim theorems -/

/-- C2: selecting `movie` yields `(enabledMovie = true, enabledSeries = false)`,
selecting `series` yields `(false, true)`, selecting `both` yields
`(true, true)`; every mode selection leaves at least one content type
effectively enabled, all seeded default catalogs satisfy that invariant, and
it is preserved by an arbitrary sequence of mode selections, so no reachable
UI state has both content types disabled. -/
theorem mode_toggle_exclusive_no_disabled_pair (c : Catalog) (ms : List Mode) :
    (applyMode c .movie).enabledMovie = some true ∧
    (applyMode c .movie).enabledSeries = some false ∧
    (applyMode c .series).enabledMovie = some false ∧
    (applyMode c .series).enabledSeries = some true ∧
    (applyMode c .both).enabledMovie = some true ∧
    (applyMode c .both).enabledSeries = some true ∧
    (∀ m, notBothDisabled (applyMode c m) = true) ∧
    (∀ cd ∈ defaultCatalogs, notBothDisabled cd = true) ∧
    (notBothDisabled c = true → notBothDisabled (ms.foldl applyMode c) = true) := by
  refine ⟨rfl, rfl, rfl, rfl, rfl, rfl, applyMode_notBothDisabled c, by decide, ?_⟩
  intro hc
  induction ms generalizing c with
  | nil => exact hc
  | cons m ms ih => exact ih (applyMode c m) (applyMode_notBothDisabled c m)

/-- C2 witness: one concrete run of the invariant part of
`mode_toggle_exclusive_no_disabled_pair`. -/
theorem mode_toggle_exclusive_no_disabled_pair_witness :
    notBothDisabled
      ([Mode.movie, Mode.series, Mode.both].foldl applyMode recCatalog) = true :=
  (mode_toggle_exclusive_no_disabled_pair _ _).2.2.2.2.2.2.2.2 (by decide)

/-- C3 counterexample: the claim asserts that `moveCatalogUp` at index 0
still performs a re-render; in the code `moveCatalogUp` returns before
`renderCatalogList()` when `index === 0`, so no re-render occurs. -/
theorem move_boundary_counterexample :
    (moveCatalogUp defaultCatalogs 0).2 = false := by decide

/-- C3 (amended): `moveCatalogUp` at index 0 and `moveCatalogDown` at the
last index leave the list unchanged and perform no re-render (the handlers
return before `renderCatalogList()`); at every interior index they swap the
entry with its adjacent neighbour, leave all other entries in place, and
trigger a full re-render. -/
theorem move_boundary_noop_interior_swap (l : List Catalog) (i : Nat) :
    moveCatalogUp l 0 = (l, false) ∧
    (l ≠ [] → moveCatalogDown l (l.length - 1) = (l, false)) ∧
    (0 < i → i < l.length →
      (moveCatalogUp l i).2 = true ∧
      (moveCatalogUp l i).1.length = l.length ∧
      (moveCatalogUp l i).1[i-1]? = l[i]? ∧
      (moveCatalogUp l i).1[i]? = l[i-1]? ∧
      ∀ j, j ≠ i - 1 → j ≠ i → (moveCatalogUp l i).1[j]? = l[j]?) ∧
    (i + 1 < l.length →
      (moveCatalogDown l i).2 = true ∧
      (moveCatalogDown l i).1.length = l.length ∧
      (moveCatalogDown l i).1[i]? = l[i+1]? ∧
      (moveCatalogDown l i).1[i+1]? = l[i]? ∧
      ∀ j, j ≠ i → j ≠ i + 1 → (moveCatalogDown l i).1[j]? = l[j]?) := by
  refine ⟨by simp [moveCatalogUp], ?_, ?_, ?_⟩
  · intro hne
    have hpos : 0 < l.length := List.length_pos.mpr hne
    have hcast : ((l.length - 1 : Nat) : Int) = (l.length : Int) - 1 := by omega
    unfold moveCatalogDown
    rw [if_pos hcast]
  · intro hpos hlt
    obtain ⟨k, rfl⟩ : ∃ k, i = k + 1 := ⟨i - 1, by omega⟩
    have hk : k + 1 < l.length := hlt
    have hup : moveCatalogUp l (k + 1) = (swapAdj l k, true) := by
      unfold moveCatalogUp
      rw [if_neg (by omega)]
      simp
    obtain ⟨hlen, hswap1, hswap2, hrest⟩ := swapAdj_spec l k hk
    rw [hup]
    refine ⟨rfl, hlen, by simpa using hswap1, by simpa using hswap2, ?_⟩
    intro j hj1 hj2
    exact hrest j (by omega) (by omega)
  · intro hlt
    have hdown : moveCatalogDown l i = (swapAdj l i, true) := by
      unfold moveCatalogDown
      rw [if_neg (by omega)]
    obtain ⟨hlen, hswap1, hswap2, hrest⟩ := swapAdj_spec l i hlt
    rw [hdown]
    exact ⟨rfl, hlen, hswap1, hswap2, hrest⟩

/-- C3 witness: `move_boundary_noop_interior_swap` evaluated on the default
catalog list at interior index 1 and at both boundaries. -/
theorem move_boundary_noop_interior_swap_witness :
    defaultCatalogs ≠ [] ∧
    moveCatalogDown defaultCatalogs (defaultCatalogs.length - 1)
      = (defaultCatalogs, false) ∧
    (moveCatalogUp defaultCatalogs 1).2 = true ∧
    (moveCatalogUp defaultCatalogs 1).1[0]? = defaultCatalogs[1]? := by
  refine ⟨by decide, (move_boundary_noop_interior_swap defaultCatalogs 1).2.1 (by decide), ?_, ?_⟩
  · exact ((move_boundary_noop_interior_swap defaultCatalogs 1).2.2.1
      (by decide) (by decide)).1
  · exact ((move_boundary_noop_interior_swap defaultCatalogs 1).2.2.1
      (by decide) (by decide)).2.2.1

/-- C4: committing a rename whose trimmed input is empty leaves the
catalog name and the displayed label unchanged and resets the input to
the previous name; committing a non-empty trimmed input sets the model
name, the displayed label and the input to that trimmed value; cancel
(Escape or the cancel button) resets the input without committing. -/
theorem rename_commit_empty_revert (s : RenameState) :
    (jsTrim s.inputValue = "" →
      saveEdit s = { s with inputValue := s.catName }) ∧
    (jsTrim s.inputValue ≠ "" →
      saveEdit s = { catName := jsTrim s.inputValue
                   , displayedLabel := jsTrim s.inputValue
                   , inputValue := jsTrim s.inputValue }) ∧
    cancelEdit s = { s with inputValue := s.catName } := by
  refine ⟨fun h => ?_, fun h => ?_, rfl⟩ <;> simp [saveEdit, h]

/-- C4 witness: `rename_commit_empty_revert` applied to a whitespace-only
input and to a paddded non-empty input. -/
theorem rename_commit_empty_revert_witness :
    saveEdit { catName := "Old", displayedLabel := "Old", inputValue := "  " }
      = { catName := "Old", displayedLabel := "Old", inputValue := "Old" } ∧
    saveEdit { catName := "Old", displayedLabel := "Old", inputValue := " New " }
      = { catName := "New", displayedLabel := "New", inputValue := "New" } :=
  ⟨(rename_commit_empty_revert _).1 (by decide),
   (rename_commit_empty_revert _).2.1 (by decide)⟩

/-- C5 counterexample: the claim also covers the legacy
`src/static/script.js` renderer it cites, where the guard is
`cat.id === "watchly.rec"`; the default `watchly.loved` catalog has an id
different from `watchly.theme` and still gets no rename control there. -/
theorem rename_guard_counterexample :
    ∃ c ∈ defaultCatalogs, c.id ≠ "watchly.theme" ∧
      (createCatalogItemLegacy 7 c 1).renameControl = false := by
  exact ⟨lovedCatalog, by decide, by decide, by decide⟩

/-- C5 (amended): in both renderers the rename guard depends only on the
catalog id, never on the position, and the `watchly.theme` catalog never
receives a rename control; in the modular renderer every catalog whose id
differs from `watchly.theme` gets a rename control, while in the legacy
`script.js` renderer only the catalog with id `watchly.rec` does. -/
theorem rename_guard_by_id (n m i j : Nat) (c : Catalog) :
    ((createCatalogItem n c i).renameControl = decide (c.id ≠ "watchly.theme")) ∧
    ((createCatalogItem n c i).renameControl = (createCatalogItem m c j).renameControl) ∧
    ((createCatalogItemLegacy n c i).renameControl = decide (c.id = "watchly.rec")) ∧
    ((createCatalogItemLegacy n c i).renameControl
        = (createCatalogItemLegacy m c j).renameControl) ∧
    (c.id = "watchly.theme" →
      (createCatalogItem n c i).renameControl = false ∧
      (createCatalogItemLegacy n c i).renameControl = false) := by
  refine ⟨rfl, rfl, rfl, rfl, fun h => ⟨?_, ?_⟩⟩ <;>
    simp [createCatalogItem, createCatalogItemLegacy, h]

/-- C5 witness: `rename_guard_by_id` evaluated on the theme catalog at two
different positions. -/
theorem rename_guard_by_id_witness :
    (createCatalogItem 7 themeCatalog 6).renameControl = false :=
  ((rename_guard_by_id 7 7 6 0 _).2.2.2.2 (by decide)).1

/-- C9: when all six section elements exist (as registered in `main.js`),
`switchSection key` makes exactly the target section visible — every other
section is hidden — and the `active` class ends up on the nav item matching
`key` alone (on no nav item if `key` has none, as for `success`). -/
theorem switch_section_exclusive (dom : NavDom) (st : NavState) (key : SectionKey)
    (hsec : ∀ k, dom.secPresent k = true) :
    (∀ k, (switchSection dom st key).visible k = decide (k = key)) ∧
    (∀ k, dom.navPresent k = true →
      (switchSection dom st key).active k
        = (decide (k = key) && dom.navPresent key)) := by
  constructor
  · intro k
    by_cases h : k = key <;> simp [switchSection, h, hsec]
  · intro k hk
    by_cases h : k = key
    · subst h
      simp [switchSection, hk]
    · simp [switchSection, h, hk]

/-- C9 witness: `switch_section_exclusive` on the DOM wiring of `main.js`
(all sections present, no `success` nav item), switching to `config` from a
state where nothing is visible or active. -/
theorem switch_section_exclusive_witness :
    (switchSection
        { secPresent := fun _ => true, navPresent := mainNavPresent }
        { visible := fun _ => false, active := fun _ => false }
        SectionKey.config).visible SectionKey.config
      = decide (SectionKey.config = SectionKey.config) ∧
    (switchSection
        { secPresent := fun _ => true, navPresent := mainNavPresent }
        { visible := fun _ => false, active := fun _ => false }
        SectionKey.config).active SectionKey.login
      = (decide (SectionKey.login = SectionKey.config)
          && mainNavPresent SectionKey.config) :=
  ⟨(switch_section_exclusive _ _ SectionKey.config (fun _ => rfl)).1 SectionKey.config,
   (switch_section_exclusive _ _ SectionKey.config (fun _ => rfl)).2 SectionKey.login
     (by decide)⟩

/-- C7: `saveAuthToStorage` stamps the blob with `expiresAt` exactly 30 days
(in epoch milliseconds) after the time of writing, and reading the saved
blob back after that timestamp has passed removes it from storage and
returns null, while reading it before expiry returns the blob unchanged —
so an expired saved credential is never returned to the caller.  `parse`
and `serialize` embed `JSON.parse` / `JSON.stringify`, assumed to
round-trip on the saved record. -/
theorem auth_storage_expiry_roundtrip (parse : String → Option AuthData)
    (serialize : AuthData → String) (d : AuthData) (tw now : Int)
    (hrt : parse (serialize (saveAuthToStorage d tw)) = some (saveAuthToStorage d tw))
    (htw : 0 ≤ tw) :
    (saveAuthToStorage d tw).expiresAt = some (tw + 30 * 86400000) ∧
    (tw + 30 * 86400000 < now →
      getAuthFromStorage parse (some (serialize (saveAuthToStorage d tw))) now
        = (none, none)) ∧
    (¬ tw + 30 * 86400000 < now →
      getAuthFromStorage parse (some (serialize (saveAuthToStorage d tw))) now
        = (some (saveAuthToStorage d tw), some (serialize (saveAuthToStorage d tw)))) := by
  have hne : tw + expiryMs ≠ 0 := by simp only [expiryMs]; omega
  have hm : expiryMs = 30 * 86400000 := rfl
  refine ⟨rfl, fun hlt => ?_, fun hge => ?_⟩
  · simp only [getAuthFromStorage, hrt]
    simp only [saveAuthToStorage]
    rw [if_pos ⟨hne, by rw [hm]; exact hlt⟩]
  · simp only [getAuthFromStorage, hrt]
    simp only [saveAuthToStorage]
    rw [if_neg (fun hc => hge (by rw [← hm]; exact hc.2))]

def authSample : AuthData :=
  { authKey := some "key123", email := none, password := none, expiresAt := none }

/-- C7 witness: a credential saved at epoch 0 and read back one millisecond
after its 30-day expiry is removed and the read returns null. -/
theorem auth_storage_expiry_roundtrip_witness :
    getAuthFromStorage (fun _ => some (saveAuthToStorage authSample 0))
      (some "blob") (30 * 86400000 + 1) = (none, none) :=
  (auth_storage_expiry_roundtrip (fun _ => some (saveAuthToStorage authSample 0))
    (fun _ => "blob") authSample 0 (30 * 86400000 + 1) rfl (by decide)).2.1 (by decide)

/-- An `AuthData` as produced by `JSON.parse` on a stored blob whose
`expiresAt` property is the number 0 (epoch, i.e. long expired). -/
def expiredZeroAuth : AuthData :=
  { authKey := some "key123", email := none, password := none, expiresAt := some 0 }

/-- C10 counterexample: a stored blob parsing to an object with
`expiresAt = 0` is expired (0 is earlier than the current time 1), yet the
guard `data.expiresAt && data.expiresAt < now` treats the 0 as falsy, so
the read succeeds and hands the expired credential back — refuting that
every successful read yields an unexpired credential. -/
theorem get_auth_total_counterexample :
    (getAuthFromStorage (fun _ => some expiredZeroAuth) (some "blob") 1).1
        = some expiredZeroAuth ∧
    expiredZeroAuth.expiresAt = some 0 ∧ (0 : Int) < 1 := by decide

/-- C10 (amended): `getAuthFromStorage` is total over arbitrary stored
strings: an absent value reads as null; a present but unparseable value is
removed from storage and reads as null; every successful read returns
exactly the parse of the stored string, leaving it in storage, and that
credential is unexpired whenever its `expiresAt` is present and nonzero (a
blob whose `expiresAt` is absent or the falsy number 0 is returned without
an expiry check). -/
theorem get_auth_total (parse : String → Option AuthData)
    (storage : Option String) (now : Int) :
    (storage = none → getAuthFromStorage parse storage now = (none, none)) ∧
    (∀ s, storage = some s → parse s = none →
      getAuthFromStorage parse storage now = (none, none)) ∧
    (∀ data, (getAuthFromStorage parse storage now).1 = some data →
      (∃ s, storage = some s ∧ parse s = some data ∧
        (getAuthFromStorage parse storage now).2 = some s) ∧
      (∀ e, data.expiresAt = some e → e ≠ 0 → ¬ e < now)) := by
  refine ⟨fun h => by simp [getAuthFromStorage, h],
    fun s hs hp => by simp [getAuthFromStorage, hs, hp], ?_⟩
  intro data hdata
  cases storage with
  | none => simp [getAuthFromStorage] at hdata
  | some s =>
    cases hp : parse s with
    | none => simp [getAuthFromStorage, hp] at hdata
    | some d =>
      cases he : d.expiresAt with
      | none =>
        simp only [getAuthFromStorage, hp, he] at hdata ⊢
        obtain rfl : d = data := by simpa using hdata
        exact ⟨⟨s, rfl, hp, rfl⟩, fun e hcontra => by simp [he] at hcontra⟩
      | some e =>
        by_cases hc : e ≠ 0 ∧ e < now
        · simp [getAuthFromStorage, hp, he, hc] at hdata
        · simp only [getAuthFromStorage, hp, he, if_neg hc] at hdata ⊢
          obtain rfl : d = data := by simpa using hdata
          refine ⟨⟨s, rfl, hp, by simp [if_neg hc]⟩, ?_⟩
          intro e0 he0 hne0
          rw [he] at he0
          obtain rfl : e = e0 := by simpa using he0
          intro hlt
          exact hc ⟨hne0, hlt⟩

/-- C10 witness: `get_auth_total` applied to an unparseable stored string —
the corrupted blob is removed and the read returns null. -/
theorem get_auth_total_witness :
    getAuthFromStorage (fun _ => none) (some "garbage") 5 = (none, none) :=
  (get_auth_total (fun _ => none) (some "garbage") 5).2.1 "garbage" rfl rfl

theorem updateFirst_map_id (l : List Catalog) (rid : String) (f : Catalog → Catalog)
    (hf : ∀ c, (f c).id = c.id) :
    (updateFirst l rid f).map (fun x => x.id) = l.map (fun x => x.id) := by
  induction l with
  | nil => rfl
  | cons c rest ih =>
    by_cases h : c.id = rid <;> simp [updateFirst, h, hf, ih]

theorem updateFirst_getElem?_of_ne (l : List Catalog) (rid : String)
    (f : Catalog → Catalog) (i : Nat) (c : Catalog)
    (hc : l[i]? = some c) (hne : c.id ≠ rid) :
    (updateFirst l rid f)[i]? = some c := by
  induction l generalizing i with
  | nil => simp at hc
  | cons a rest ih =>
    cases i with
    | zero =>
      simp only [List.getElem?_cons_zero, Option.some_inj] at hc
      subst hc
      have h : ¬ a.id = rid := hne
      simp [updateFirst, h]
    | succ n =>
      simp only [List.getElem?_cons_succ] at hc
      by_cases h : a.id = rid
      · simp [updateFirst, h, hc]
      · simp only [updateFirst, if_neg h, List.getElem?_cons_succ]
        exact ih n hc

theorem updateFirst_of_not_mem (l : List Catalog) (rid : String) (f : Catalog → Catalog)
    (h : ∀ c ∈ l, c.id ≠ rid) :
    updateFirst l rid f = l := by
  induction l with
  | nil => rfl
  | cons a rest ih =>
    have ha : ¬ a.id = rid := h a (List.mem_cons_self a rest)
    simp only [updateFirst, if_neg ha, List.cons.injEq, true_and]
    exact ih (fun c hc => h c (List.mem_cons_of_mem a hc))

theorem loadRemoteCatalogs_cons (locals : List Catalog) (r : RemoteCatalog)
    (rs : List RemoteCatalog) :
    loadRemoteCatalogs locals (r :: rs)
      = loadRemoteCatalogs (updateFirst locals r.id (fun c => applyRemote c r)) rs := rfl

theorem loadRemoteCatalogs_map_id (locals : List Catalog)
    (remotes : List RemoteCatalog) :
    (loadRemoteCatalogs locals remotes).map (fun x => x.id)
      = locals.map (fun x => x.id) := by
  induction remotes generalizing locals with
  | nil => rfl
  | cons r rs ih =>
    rw [loadRemoteCatalogs_cons, ih]
    exact updateFirst_map_id _ _ _ (fun c => rfl)

theorem loadRemoteCatalogs_getElem?_of_unmatched (locals : List Catalog)
    (remotes : List RemoteCatalog) (i : Nat) (c : Catalog)
    (hc : locals[i]? = some c) (h : ∀ r ∈ remotes, r.id ≠ c.id) :
    (loadRemoteCatalogs locals remotes)[i]? = some c := by
  induction remotes generalizing locals with
  | nil => exact hc
  | cons r rs ih =>
    rw [loadRemoteCatalogs_cons]
    exact ih _
      (updateFirst_getElem?_of_ne _ _ _ _ _ hc
        (Ne.symm (h r (List.mem_cons_self r rs))))
      (fun rr hrr => h rr (List.mem_cons_of_mem r hrr))

/-- C6: loading the catalog settings of a returning user preserves the length,
order and ids of the local list; a local entry whose id matches no remote
entry is left untouched (it keeps its default values); a remote entry
whose id matches no local entry changes nothing; and on a matched entry
exactly the flagged fields are written — `enabled` always, `name` only
when the remote name is a non-empty string, and each of the four
movie/series/home/shuffle flags only when the remote value is a boolean —
while `id` and `description` are never modified. -/
theorem load_remote_catalogs_merge (locals : List Catalog)
    (remotes : List RemoteCatalog) (r : RemoteCatalog) (c : Catalog) (i : Nat) :
    ((loadRemoteCatalogs locals remotes).map (fun x => x.id)
        = locals.map (fun x => x.id)) ∧
    (locals[i]? = some c → (∀ rr ∈ remotes, rr.id ≠ c.id) →
      (loadRemoteCatalogs locals remotes)[i]? = some c) ∧
    ((∀ x ∈ locals, x.id ≠ r.id) →
      loadRemoteCatalogs locals (r :: remotes) = loadRemoteCatalogs locals remotes) ∧
    ((applyRemote c r).id = c.id ∧
     (applyRemote c r).description = c.description ∧
     (applyRemote c r).enabled = r.enabled ∧
     (r.name = none → (applyRemote c r).name = c.name) ∧
     (∀ n, r.name = some n → n ≠ "" → (applyRemote c r).name = n) ∧
     (r.name = some "" → (applyRemote c r).name = c.name) ∧
     (r.enabled_movie = none → (applyRemote c r).enabledMovie = c.enabledMovie) ∧
     (∀ b, r.enabled_movie = some b → (applyRemote c r).enabledMovie = some b) ∧
     (r.enabled_series = none → (applyRemote c r).enabledSeries = c.enabledSeries) ∧
     (∀ b, r.enabled_series = some b → (applyRemote c r).enabledSeries = some b) ∧
     (r.display_at_home = none → (applyRemote c r).display_at_home = c.display_at_home) ∧
     (∀ b, r.display_at_home = some b → (applyRemote c r).display_at_home = some b) ∧
     (r.shuffle = none → (applyRemote c r).shuffle = c.shuffle) ∧
     (∀ b, r.shuffle = some b → (applyRemote c r).shuffle = some b)) := by
  refine ⟨loadRemoteCatalogs_map_id locals remotes,
    loadRemoteCatalogs_getElem?_of_unmatched locals remotes i c,
    fun h => ?_, rfl, rfl, rfl, ?_, ?_, ?_, ?_, ?_, ?_, ?_, ?_, ?_, ?_, ?_⟩
  · rw [loadRemoteCatalogs_cons, updateFirst_of_not_mem _ _ _ h]
  · intro h
    simp [applyRemote, h]
  · intro n h hn
    simp [applyRemote, h, hn]
  · intro h
    simp [applyRemote, h]
  · intro h
    simp [applyRemote, h]
  · intro b h
    simp [applyRemote, h]
  · intro h
    simp [applyRemote, h]
  · intro b h
    simp [applyRemote, h]
  · intro h
    simp [applyRemote, h]
  · intro b h
    simp [applyRemote, h]
  · intro h
    simp [applyRemote, h]
  · intro b h
    simp [applyRemote, h]

def remoteUnmatched : RemoteCatalog :=
  { id := "watchly.nonexistent", enabled := false, name := some "Hijack",
    enabled_movie := some false, enabled_series := some false,
    display_at_home := some false, shuffle := some true }

/-- C6 witness: `load_remote_catalogs_merge` on the default catalog list
and a remote list whose single entry matches no local id — the first local
entry is preserved exactly. -/
theorem load_remote_catalogs_merge_witness :
    (loadRemoteCatalogs defaultCatalogs [remoteUnmatched])[0]? = some recCatalog :=
  (load_remote_catalogs_merge defaultCatalogs [remoteUnmatched]
      remoteUnmatched recCatalog 0).2.1 (by decide) (by decide)

theorem submitHandler_of_missing (env : SubmitEnv)
    (h : jsTrim env.authKeyField = "" ∧
      (jsTrim env.emailField = "" ∨ env.passwordField = "")) :
    submitHandler env =
      { posted := none, loginErrorShown := true, switchedToLogin := true
      , validateCalled := false, apiKeyFieldAfter := env.apiKeyField
      , validationMessage := none } := by
  simp only [submitHandler]
  rw [if_pos h]

theorem submitHandler_validated (env : SubmitEnv)
    (hlogin : ¬(jsTrim env.authKeyField = "" ∧
      (jsTrim env.emailField = "" ∨ env.passwordField = "")))
    (hguard : env.providerField ≠ "" ∧ jsTrim env.apiKeyField ≠ "" ∧
      env.validatorInstalled = true) :
    submitHandler env =
      if (validateApiKey env.providerField env.apiKeyField env.validateResp).ok then
        { posted := some (mkTokensPayload env), loginErrorShown := false
        , switchedToLogin := false, validateCalled := true
        , apiKeyFieldAfter :=
            (validateApiKey env.providerField env.apiKeyField env.validateResp).apiKeyFieldAfter
        , validationMessage :=
            (validateApiKey env.providerField env.apiKeyField env.validateResp).message }
      else
        { posted := none, loginErrorShown := false, switchedToLogin := false
        , validateCalled := true
        , apiKeyFieldAfter :=
            (validateApiKey env.providerField env.apiKeyField env.validateResp).apiKeyFieldAfter
        , validationMessage :=
            (validateApiKey env.providerField env.apiKeyField env.validateResp).message } := by
  simp only [submitHandler]
  rw [if_neg hlogin, if_pos hguard]

theorem validateApiKey_ok_of (p k : String) (r : Option ValidateResp)
    (h : (validateApiKey p k r).ok = true) :
    ∃ d, r = some d ∧ d.valid = true := by
  by_cases h0 : p = "" ∨ jsTrim k = ""
  · simp [validateApiKey, h0] at h
  · cases r with
    | none => simp [validateApiKey, h0] at h
    | some d =>
      by_cases hd : d.valid = true
      · exact ⟨d, rfl, hd⟩
      · simp [validateApiKey, h0, hd] at h

theorem validateApiKey_invalid (p k : String) (d : ValidateResp)
    (hp : p ≠ "") (hk : jsTrim k ≠ "") (hd : d.valid = false) :
    validateApiKey p k (some d) =
      { ok := false, apiKeyFieldAfter := ""
      , message := some (jsOrDefault d.message "Invalid API key") } := by
  simp only [validateApiKey]
  rw [if_neg (by push_neg; exact ⟨hp, hk⟩)]
  simp [hd]

/-- C1: when the trimmed auth key is empty and the email or the password is
empty, the submit handler shows the local validation error, switches the UI
to the login section, makes no poster-key validation call and issues no
`POST /tokens/` — so no payload is built. -/
theorem submit_missing_credentials_aborts (env : SubmitEnv)
    (hk : jsTrim env.authKeyField = "")
    (hep : jsTrim env.emailField = "" ∨ env.passwordField = "") :
    submitHandler env =
      { posted := none, loginErrorShown := true, switchedToLogin := true
      , validateCalled := false, apiKeyFieldAfter := env.apiKeyField
      , validationMessage := none } :=
  submitHandler_of_missing env ⟨hk, hep⟩

def missingCredsEnv : SubmitEnv :=
  { authKeyField := "  ", emailField := "", passwordField := "hunter2"
  , languageField := "en-US", providerField := "rpdb", apiKeyField := "abc"
  , excludedMovieGenres := [], excludedSeriesGenres := []
  , catalogs := defaultCatalogs, domModes := fun _ => none
  , validatorInstalled := true
  , validateResp := some { valid := true, message := none } }

/-- C1 witness: a whitespace-only auth key with an empty email aborts the
submission with the local error, even though a password is present. -/
theorem submit_missing_credentials_aborts_witness :
    submitHandler missingCredsEnv =
      { posted := none, loginErrorShown := true, switchedToLogin := true
      , validateCalled := false, apiKeyFieldAfter := "abc"
      , validationMessage := none } :=
  submit_missing_credentials_aborts missingCredsEnv (by decide) (Or.inl (by decide))

/-- C8: with a poster-rating provider selected, a non-empty trimmed API key
and the validator installed, the `POST /tokens/` is issued only when the
`/poster-rating/validate` round-trip reports `valid = true`; and whenever
the server reports the key invalid (with the credential precondition
satisfied), the submission is aborted with no POST, the API-key field is
cleared, and the server message (or the default) is shown. -/
theorem submit_validates_poster_key (env : SubmitEnv)
    (hp : env.providerField ≠ "")
    (hkey : jsTrim env.apiKeyField ≠ "")
    (hv : env.validatorInstalled = true) :
    ((submitHandler env).posted.isSome = true →
      ∃ d, env.validateResp = some d ∧ d.valid = true) ∧
    (∀ d, env.validateResp = some d → d.valid = false →
      ¬(jsTrim env.authKeyField = "" ∧
          (jsTrim env.emailField = "" ∨ env.passwordField = "")) →
      submitHandler env =
        { posted := none, loginErrorShown := false, switchedToLogin := false
        , validateCalled := true, apiKeyFieldAfter := ""
        , validationMessage := some (jsOrDefault d.message "Invalid API key") }) := by
  constructor
  · intro hposted
    by_cases hlogin : jsTrim env.authKeyField = "" ∧
        (jsTrim env.emailField = "" ∨ env.passwordField = "")
    · rw [submitHandler_of_missing env hlogin] at hposted
      simp at hposted
    · rw [submitHandler_validated env hlogin ⟨hp, hkey, hv⟩] at hposted
      by_cases hok :
          (validateApiKey env.providerField env.apiKeyField env.validateResp).ok = true
      · exact validateApiKey_ok_of _ _ _ hok
      · rw [if_neg (by simpa using hok)] at hposted
        simp at hposted
  · intro d hd hdv hlogin
    rw [submitHandler_validated env hlogin ⟨hp, hkey, hv⟩, hd,
      validateApiKey_invalid env.providerField env.apiKeyField d hp hkey hdv]
    simp

def invalidKeyEnv : SubmitEnv :=
  { authKeyField := "KEY", emailField := "", passwordField := ""
  , languageField := "en-US", providerField := "rpdb", apiKeyField := " abc "
  , excludedMovieGenres := [], excludedSeriesGenres := []
  , catalogs := defaultCatalogs, domModes := fun _ => none
  , validatorInstalled := true
  , validateResp := some { valid := false, message := some "Bad key" } }

/-- C8 witness: a server-side rejection of the poster API key aborts the
submission, clears the key field and surfaces the server message. -/
theorem submit_validates_poster_key_witness :
    submitHandler invalidKeyEnv =
      { posted := none, loginErrorShown := false, switchedToLogin := false
      , validateCalled := true, apiKeyFieldAfter := ""
      , validationMessage := some "Bad key" } :=
  (submit_validates_poster_key invalidKeyEnv (by decide) (by decide) rfl).2
    { valid := false, message := some "Bad key" } rfl rfl (by decide)

end Watchly
